import Mathlib

/-!
Shallow embedding of the homework-status bot (`homework.py`, `exceptions.py`).

Python JSON-ish values are modelled by `Value`; the exception classes of
`exceptions.py` (plus the plain `TypeError` raised by `check_response` and a
generic constructor for other Python runtime errors) by `HWError`.  Network
and messaging side effects are modelled by an environment of oracles (`Env`)
and an explicit effect log (`World`); the body of `while True:` in `main`
becomes the function `mainLoopBody` on `LoopState`.
-/

/-- Python/JSON values as they occur in decoded API payloads. -/
inductive Value : Type where
  | vStr : String → Value
  | vInt : Int → Value
  | vBool : Bool → Value
  | vNone : Value
  | vList : List Value → Value
  | vDict : List (String × Value) → Value
deriving Repr

/-- The exception classes of `exceptions.py`, plus `typeError` for the plain
`TypeError` raised in `check_response` and `pyError` for other Python runtime
errors (AttributeError, IndexError, plain KeyError, ...).  Each carries the
message string the code constructs. -/
inductive HWError : Type where
  | apiConnectionError : String → HWError
  | apiResponseError : String → HWError
  | homeworksNotListError : String → HWError
  | jsonDecodeError : String → HWError
  | messageSendError : String → HWError
  | missingHomeworkKeyError : String → HWError
  | unknownHomeworkStatusError : String → HWError
  | typeError : String → HWError
  | pyError : String → HWError
deriving DecidableEq, Repr

/-- Association-list lookup, first match wins (Python dicts have unique keys,
so this coincides with dict lookup). -/
def lookupKey {β : Type} : List (String × β) → String → Option β
  | [], _ => none
  | (k, v) :: t, key => if k = key then some v else lookupKey t key

mutual

/-- Python `repr` of a value (string escaping is not modelled: no string in
the program or in the payloads considered here contains quotes or escapes
that would render differently). -/
def pyRepr : Value → String
  | .vStr s => "'" ++ s ++ "'"
  | .vInt n => toString n
  | .vBool b => if b then "True" else "False"
  | .vNone => "None"
  | .vList l => "[" ++ String.intercalate ", " (pyReprList l) ++ "]"
  | .vDict d => "\x7b" ++ String.intercalate ", " (pyReprPairs d) ++ "\x7d"

/-- `repr` of the elements of a list value. -/
def pyReprList : List Value → List String
  | [] => []
  | v :: t => pyRepr v :: pyReprList t

/-- `repr` of the entries of a dict value. -/
def pyReprPairs : List (String × Value) → List String
  | [] => []
  | (k, v) :: t => ("'" ++ k ++ "': " ++ pyRepr v) :: pyReprPairs t

end

/-- Python `str` of a value, as used by f-string interpolation. -/
def pyStr : Value → String
  | .vStr s => s
  | v => pyRepr v

/-- Python truthiness, as in `if homeworks:`. -/
def pyTruthy : Value → Bool
  | .vStr s => s != ""
  | .vInt n => n != 0
  | .vBool b => b
  | .vNone => false
  | .vList l => !l.isEmpty
  | .vDict d => !d.isEmpty

/-- Python `key in container` for a string key (`in` on an int/bool/None
raises `TypeError`). -/
def pyInKeys (needle : String) (v : Value) : Except HWError Bool :=
  match v with
  | .vDict d => .ok (lookupKey d needle).isSome
  | .vList l => .ok (l.any fun x => match x with | .vStr s => s == needle | _ => false)
  | .vStr s => .ok (s.data.tails.any fun t => needle.data.isPrefixOf t)
  | _ => .error (.pyError "TypeError: argument is not iterable")

/-- Python `container[key]` for a string key. -/
def pySubscript (v : Value) (key : String) : Except HWError Value :=
  match v with
  | .vDict d =>
    match lookupKey d key with
    | some x => .ok x
    | none => .error (.pyError ("KeyError: '" ++ key ++ "'"))
  | .vList _ => .error (.pyError "TypeError: list indices must be integers or slices, not str")
  | .vStr _ => .error (.pyError "TypeError: string indices must be integers")
  | _ => .error (.pyError "TypeError: object is not subscriptable")

/-- Python `container[0]`, as in `homeworks[0]`. -/
def pyIndex0 : Value → Except HWError Value
  | .vList (h :: _) => .ok h
  | .vList [] => .error (.pyError "IndexError: list index out of range")
  | .vStr s =>
    if s = "" then .error (.pyError "IndexError: string index out of range")
    else .ok (.vStr (s.take 1))
  | .vDict _ => .error (.pyError "KeyError: 0")
  | _ => .error (.pyError "TypeError: object is not subscriptable")

/-- Python `v.get(key, default)` (only dicts have `.get`; on anything else
attribute lookup raises `AttributeError`). -/
def pyGetD (v : Value) (key : String) (default : Value) : Except HWError Value :=
  match v with
  | .vDict d => .ok ((lookupKey d key).getD default)
  | _ => .error (.pyError "AttributeError: object has no attribute get")

/-- `str(e)` for a raised exception `e`, as interpolated into f-strings.
`MissingHomeworkKeyError` subclasses `KeyError`, whose `str` wraps the
message in single quotes. -/
def errStr : HWError → String
  | .apiConnectionError m => m
  | .apiResponseError m => m
  | .homeworksNotListError m => m
  | .jsonDecodeError m => m
  | .messageSendError m => m
  | .missingHomeworkKeyError m => "'" ++ m ++ "'"
  | .unknownHomeworkStatusError m => m
  | .typeError m => m
  | .pyError m => m

/-- `ENDPOINT` from `homework.py`. -/
def ENDPOINT : String := "https://practicum.yandex.ru/api/user_api/homework_statuses/"

/-- `RETRY_PERIOD` from `homework.py`. -/
def RETRY_PERIOD : Nat := 600

/-- `HOMEWORK_VERDICTS` from `homework.py`. -/
def HOMEWORK_VERDICTS : List (String × String) :=
  [("approved", "Работа проверена: ревьюеру всё понравилось. Ура!"),
   ("reviewing", "Работа взята на проверку ревьюером."),
   ("rejected", "Работа проверена: у ревьюера есть замечания.")]

/-- `status not in HOMEWORK_VERDICTS` followed by `HOMEWORK_VERDICTS[status]`:
dict membership first hashes the candidate key, so an unhashable status (a
list or a dict) raises `TypeError: unhashable type`; a hashable non-string
status is hashed fine but is never equal to any of the string keys. -/
def verdictLookup (status : Value) : Except HWError (Option String) :=
  match status with
  | .vStr s => .ok (lookupKey HOMEWORK_VERDICTS s)
  | .vList _ => .error (.pyError "TypeError: unhashable type: 'list'")
  | .vDict _ => .error (.pyError "TypeError: unhashable type: 'dict'")
  | _ => .ok none

/-- `check_response` from `homework.py`: shape check of the decoded payload.
Returns `.ok ()` (Python `None`) on success; purely functional, the payload
is never modified. -/
def check_response (response : Value) : Except HWError Unit :=
  match response with
  | .vDict d =>
    match lookupKey d "homeworks" with
    | none => .error (.missingHomeworkKeyError "В ответе API отсутствует ключ \"homeworks\".")
    | some homeworks =>
      match homeworks with
      | .vList _ => .ok ()
      | _ => .error (.homeworksNotListError "Значение ключа \"homeworks\" не является списком.")
  | _ => .error (.typeError "Ответ API не является словарем.")

/-- `parse_status` from `homework.py`: extracts the status of a homework
record and builds the notification sentence.  Note the source builds the
sentence from two adjacent f-strings with no separator between `".` and the
verdict text. -/
def parse_status (homework : Value) : Except HWError String :=
  match pyInKeys "homework_name" homework with
  | .error e => .error e
  | .ok false => .error (.missingHomeworkKeyError "Отсутствует ключ \"homework_name\" в homework.")
  | .ok true =>
    match pyInKeys "status" homework with
    | .error e => .error e
    | .ok false => .error (.missingHomeworkKeyError "Отсутствует ключ \"status\" в homework.")
    | .ok true =>
      match pySubscript homework "homework_name" with
      | .error e => .error e
      | .ok homework_name =>
        match pySubscript homework "status" with
        | .error e => .error e
        | .ok status =>
          match verdictLookup status with
          | .error e => .error e
          | .ok none =>
            .error (.unknownHomeworkStatusError
              ("Неизвестный статус работы: " ++ pyStr status))
          | .ok (some verdict) =>
            .ok ("Изменился статус проверки работы \"" ++ pyStr homework_name
                 ++ "\"." ++ verdict)

/-- Outcome of one call to `requests.get` in `get_api_answer`: the possible
raises, a non-OK HTTP status, an undecodable body, or a decoded payload.
For error outcomes the string is `str` of the underlying library exception. -/
inductive ApiOutcome : Type where
  | connectionError : String → ApiOutcome
  | requestException : String → ApiOutcome
  | badStatus : Nat → ApiOutcome
  | decodeError : String → ApiOutcome
  | payload : Value → ApiOutcome

/-- External world as the loop observes it: `api n` is the outcome of the
n-th outbound HTTP request of the process, `sendOk n` tells whether the n-th
`bot.send_message` call succeeds, `sendErr n` is `str` of the library
exception when it does not, and `token` is `PRACTICUM_TOKEN`. -/
structure Env : Type where
  api : Nat → ApiOutcome
  sendOk : Nat → Bool
  sendErr : Nat → String
  token : String

/-- Observable side effects accumulated so far: number of HTTP requests
issued, number of send attempts made, and the messages actually delivered to
the Telegram chat, in order. -/
structure World : Type where
  requests : Nat
  sendAttempts : Nat
  chat : List String
deriving Repr

/-- `send_message` from `homework.py`: one `bot.send_message` attempt; on a
library exception it raises `MessageSendError` wrapping `str(e)`. -/
def send_message (env : Env) (w : World) (message : String) :
    World × Except HWError Unit :=
  let n := w.sendAttempts
  if env.sendOk n then
    ({ w with sendAttempts := n + 1, chat := w.chat ++ [message] }, .ok ())
  else
    ({ w with sendAttempts := n + 1 },
     .error (.messageSendError ("Не удалось отправить сообщение: " ++ env.sendErr n)))

/-- Python `str` of the `request_kwargs` dict built in `get_api_answer`. -/
def requestKwargsStr (token : String) (timestamp : Value) : String :=
  "\x7b'url': '" ++ ENDPOINT ++ "', 'headers': \x7b'Authorization': 'OAuth " ++ token
    ++ "'\x7d, 'params': \x7b'from_date': " ++ pyRepr timestamp ++ "\x7d\x7d"

/-- `get_api_answer` from `homework.py`: one `requests.get` call; raises
`APIConnectionError` on a connection error, `APIResponseError` on another
request exception or a non-OK status code, `JSONDecodeError` on an
undecodable body, and returns the decoded payload otherwise. -/
def get_api_answer (env : Env) (w : World) (timestamp : Value) :
    World × Except HWError Value :=
  let kwargs := requestKwargsStr env.token timestamp
  let n := w.requests
  let w1 := { w with requests := n + 1 }
  match env.api n with
  | .connectionError m =>
    (w1, .error (.apiConnectionError
      ("Ошибка соединения с API: " ++ m ++ ". Параметры запроса: " ++ kwargs)))
  | .requestException m =>
    (w1, .error (.apiResponseError
      ("Ошибка при запросе к API: " ++ m ++ ". Параметры запроса: " ++ kwargs)))
  | .badStatus code =>
    (w1, .error (.apiResponseError
      ("API вернул код ответа " ++ toString code ++ ". Параметры запроса: " ++ kwargs)))
  | .decodeError m =>
    (w1, .error (.jsonDecodeError
      ("Ошибка при декодировании JSON: " ++ m ++ ". Параметры запроса: " ++ kwargs)))
  | .payload v => (w1, .ok v)

/-- `handle_api_request` from `homework.py`.  Note the source reads
`check_response(get_api_answer(timestamp)); return get_api_answer(timestamp)`:
it calls `get_api_answer` twice, validates the first answer and returns the
second one unvalidated. -/
def handle_api_request (env : Env) (w : World) (timestamp : Value) :
    World × Except HWError Value :=
  match get_api_answer env w timestamp with
  | (w1, .error e) => (w1, .error e)
  | (w1, .ok v) =>
    match check_response v with
    | .error e => (w1, .error e)
    | .ok () => get_api_answer env w1 timestamp

/-- `handle_homework` from `homework.py`: `status = parse_status(homework)`,
then `if status != last_status: send_message(bot, status); return status`
else `return last_status` (the branches are swapped here: the guard is the
negation).  `last_status` is `None` initially, and a string thereafter. -/
def handle_homework (env : Env) (w : World) (homework : Value)
    (last_status : Option String) : World × Except HWError String :=
  match parse_status homework with
  | .error e => (w, .error e)
  | .ok status =>
    if last_status = some status then
      (w, .ok status)
    else
      match send_message env w status with
      | (w1, .error e) => (w1, .error e)
      | (w1, .ok ()) => (w1, .ok status)

/-- Per-cycle mutable state of `main`: the effect log plus the three local
variables `timestamp`, `last_status` and `error_sent`. -/
structure LoopState : Type where
  world : World
  timestamp : Value
  last_status : Option String
  error_sent : Bool

/-- The `if homeworks: last_status = handle_homework(...) else: log` part of
the loop body; returns the new `last_status`. -/
def notifyStep (env : Env) (w : World) (homeworks : Value)
    (last_status : Option String) : World × Except HWError (Option String) :=
  if pyTruthy homeworks then
    match pyIndex0 homeworks with
    | .error e => (w, .error e)
    | .ok hw0 =>
      match handle_homework env w hw0 last_status with
      | (w1, .error e) => (w1, .error e)
      | (w1, .ok st) => (w1, .ok (some st))
  else
    (w, .ok last_status)

/-- The `try:` block of the loop body in `main`: fetch and validate, read
`homeworks` with default `[]`, notify on the first record, then
`timestamp = response.get('current_date', timestamp)`.  Returns the state as
far as execution got and whether an exception was raised. -/
def cycleTry (env : Env) (s : LoopState) : LoopState × Except HWError Unit :=
  match handle_api_request env s.world s.timestamp with
  | (w1, .error e) => ({ s with world := w1 }, .error e)
  | (w1, .ok response) =>
    match pyGetD response "homeworks" (.vList []) with
    | .error e => ({ s with world := w1 }, .error e)
    | .ok homeworks =>
      match notifyStep env w1 homeworks s.last_status with
      | (w2, .error e) => ({ s with world := w2 }, .error e)
      | (w2, .ok last') =>
        match pyGetD response "current_date" s.timestamp with
        | .error e => ({ s with world := w2, last_status := last' }, .error e)
        | .ok ts' =>
          ({ world := w2, timestamp := ts', last_status := last',
             error_sent := s.error_sent }, .ok ())

/-- The chat text built in the `except` clauses of `main`:
`except APIResponseError` uses one prefix, the catch-all `except Exception`
the other. -/
def errNotice (e : HWError) : String :=
  match e with
  | .apiResponseError _ => "Ошибка при получении ответа от API: " ++ errStr e
  | _ => "Сбой в работе: " ++ errStr e

/-- One iteration of `while True:` in `main`: the `try` block, the two
`except` clauses (log, then `send_message` once per failing streak guarded
by `error_sent`), the `else` clause resetting `error_sent`, and the
`finally: time.sleep(RETRY_PERIOD)` (the sleep itself has no modelled
effect).  The second component is `some e` when an exception escaped the
handlers — an exception raised by `send_message` inside an `except` clause
is not caught, terminating the loop. -/
def mainLoopBody (env : Env) (s : LoopState) : LoopState × Option HWError :=
  match cycleTry env s with
  | (s1, .ok ()) => ({ s1 with error_sent := false }, none)
  | (s1, .error e) =>
    if s1.error_sent then
      (s1, none)
    else
      match send_message env s1.world (errNotice e) with
      | (w2, .ok ()) => ({ s1 with world := w2, error_sent := true }, none)
      | (w2, .error e2) => ({ s1 with world := w2 }, some e2)

/-- State of `main` when the loop is first entered: no effects yet,
`timestamp = int(time.time())` (given as `t0`), `last_status = None`,
`error_sent = False`. -/
def initState (t0 : Int) : LoopState :=
  { world := { requests := 0, sendAttempts := 0, chat := [] },
    timestamp := .vInt t0, last_status := none, error_sent := false }

/-- Run `n` iterations of the loop body, stopping early if an exception
escapes (`some e`: the loop terminated). -/
def runCycles (env : Env) (s : LoopState) : Nat → LoopState × Option HWError
  | 0 => (s, none)
  | n + 1 =>
    match mainLoopBody env s with
    | (s', none) => runCycles env s' n
    | (s', some e) => (s', some e)

/-- The next `n` cycles each raise inside the `try` block and each time the
exception is handled (the loop survives). -/
def allFailHandled (env : Env) (s : LoopState) : Nat → Prop
  | 0 => True
  | n + 1 =>
    (∃ e, (cycleTry env s).2 = .error e) ∧ (mainLoopBody env s).2 = none ∧
      allFailHandled env (mainLoopBody env s).1 n

/-! ### Concrete fixtures -/

/-- A record with a known good status. -/
def hwApproved : Value :=
  .vDict [("homework_name", .vStr "hw1"), ("status", .vStr "approved")]

/-- A record with an unknown status. -/
def hwFrozen : Value :=
  .vDict [("homework_name", .vStr "hw1"), ("status", .vStr "frozen")]

/-- Payload `{"homeworks": [hwApproved], "current_date": 1000}`. -/
def respApproved : Value :=
  .vDict [("homeworks", .vList [hwApproved]), ("current_date", .vInt 1000)]

/-- Payload `{"homeworks": [hwFrozen], "current_date": 1000}`. -/
def respFrozen : Value :=
  .vDict [("homeworks", .vList [hwFrozen]), ("current_date", .vInt 1000)]

/-- API always answers HTTP 500; chat sends always succeed. -/
def envHttp500 : Env :=
  { api := fun _ => .badStatus 500, sendOk := fun _ => true,
    sendErr := fun _ => "", token := "T" }

/-- API always returns `respApproved`; chat sends always succeed. -/
def envApproved : Env :=
  { api := fun _ => .payload respApproved, sendOk := fun _ => true,
    sendErr := fun _ => "", token := "T" }

/-- API always returns `respApproved`; every chat send fails. -/
def envSendAlwaysFails : Env :=
  { api := fun _ => .payload respApproved, sendOk := fun _ => false,
    sendErr := fun _ => "Bad Request", token := "T" }

/-- API always returns `respApproved`; the first chat send fails, later ones
succeed. -/
def envFirstSendFails : Env :=
  { api := fun _ => .payload respApproved, sendOk := fun n => n != 0,
    sendErr := fun _ => "Bad Request", token := "T" }

/-- First API answer is `{"homeworks": []}`, every later answer is the bare
integer `7`. -/
def envSecondAnswerBad : Env :=
  { api := fun n => if n = 0 then .payload (.vDict [("homeworks", .vList [])])
                    else .payload (.vInt 7),
    sendOk := fun _ => true, sendErr := fun _ => "", token := "T" }

/-- API always returns `respFrozen`; chat sends always succeed. -/
def envFrozen : Env :=
  { api := fun _ => .payload respFrozen, sendOk := fun _ => true,
    sendErr := fun _ => "", token := "T" }

/-- API always answers HTTP 404; chat sends always succeed. -/
def envHttp404 : Env :=
  { api := fun _ => .badStatus 404, sendOk := fun _ => true,
    sendErr := fun _ => "", token := "T" }

/-- State of a loop that has already notified about an error in the current
failing streak. -/
def stateErrSent : LoopState :=
  { world := { requests := 0, sendAttempts := 0, chat := [] },
    timestamp := .vInt 0, last_status := none, error_sent := true }

/-! ### Helper lemmas -/

theorem get_api_answer_world (env : Env) (w : World) (t : Value)
    (w' : World) (r : Except HWError Value)
    (h : get_api_answer env w t = (w', r)) :
    w' = { w with requests := w.requests + 1 } := by
  cases henv : env.api w.requests <;>
    simp [get_api_answer, henv] at h <;> exact h.1.symm

theorem handle_api_request_chat (env : Env) (w : World) (t : Value)
    (w' : World) (r : Except HWError Value)
    (h : handle_api_request env w t = (w', r)) :
    w'.chat = w.chat := by
  unfold handle_api_request at h
  split at h
  · rename_i w1 e heq
    have h1 := get_api_answer_world env w t w1 (.error e) heq
    injection h with h2 h3
    subst h2 h1
    rfl
  · rename_i w1 v heq
    have h1 := get_api_answer_world env w t w1 (.ok v) heq
    split at h
    · injection h with h2 h3
      subst h2 h1
      rfl
    · have h2 := get_api_answer_world env w1 t w' r h
      subst h2 h1
      rfl

theorem send_message_of_ok (env : Env) (w : World) (m : String)
    (hok : env.sendOk w.sendAttempts = true) :
    send_message env w m =
      ({ w with sendAttempts := w.sendAttempts + 1, chat := w.chat ++ [m] },
       .ok ()) := by
  simp [send_message, hok]

theorem send_message_of_fail (env : Env) (w : World) (m : String)
    (hok : env.sendOk w.sendAttempts = false) :
    send_message env w m =
      ({ w with sendAttempts := w.sendAttempts + 1 },
       .error (.messageSendError
         ("Не удалось отправить сообщение: " ++ env.sendErr w.sendAttempts))) := by
  simp [send_message, hok]

theorem send_message_chat_of_error (env : Env) (w : World) (m : String)
    (w' : World) (e : HWError)
    (h : send_message env w m = (w', .error e)) :
    w'.chat = w.chat := by
  cases hok : env.sendOk w.sendAttempts
  · rw [send_message_of_fail env w m hok] at h
    injection h with h1 h2
    subst h1
    rfl
  · rw [send_message_of_ok env w m hok] at h
    injection h with h1 h2
    cases h2

theorem handle_homework_chat_of_error (env : Env) (w : World) (hw : Value)
    (last : Option String) (w' : World) (e : HWError)
    (h : handle_homework env w hw last = (w', .error e)) :
    w'.chat = w.chat := by
  unfold handle_homework at h
  split at h
  · injection h with h1 h2
    subst h1
    rfl
  · split at h
    · injection h with h1 h2
      cases h2
    · split at h
      · rename_i w1 e1 heq
        injection h with h1 h2
        subst h1
        exact send_message_chat_of_error env w _ w1 e1 heq
      · injection h with h1 h2
        cases h2

theorem notifyStep_chat_of_error (env : Env) (w : World) (homeworks : Value)
    (last : Option String) (w' : World) (e : HWError)
    (h : notifyStep env w homeworks last = (w', .error e)) :
    w'.chat = w.chat := by
  unfold notifyStep at h
  split at h
  · split at h
    · injection h with h1 h2
      subst h1
      rfl
    · split at h
      · rename_i w1 e1 heq
        injection h with h1 h2
        subst h1
        exact handle_homework_chat_of_error env w _ last w1 e1 heq
      · injection h with h1 h2
        cases h2
  · injection h with h1 h2
    cases h2

theorem pyGetD_ok_of_ok (v : Value) (k1 k2 : String) (d1 d2 : Value)
    (x : Value) (h : pyGetD v k1 d1 = .ok x) :
    ∃ y, pyGetD v k2 d2 = .ok y := by
  cases v <;> simp_all [pyGetD]

theorem cycleTry_error_sent (env : Env) (s : LoopState) (s1 : LoopState)
    (r : Except HWError Unit) (h : cycleTry env s = (s1, r)) :
    s1.error_sent = s.error_sent := by
  unfold cycleTry at h
  split at h
  · injection h with h1 h2; subst h1; rfl
  · split at h
    · injection h with h1 h2; subst h1; rfl
    · split at h
      · injection h with h1 h2; subst h1; rfl
      · split at h
        · injection h with h1 h2; subst h1; rfl
        · injection h with h1 h2; subst h1; rfl

theorem cycleTry_timestamp_of_error (env : Env) (s : LoopState)
    (s1 : LoopState) (e : HWError) (h : cycleTry env s = (s1, .error e)) :
    s1.timestamp = s.timestamp := by
  unfold cycleTry at h
  split at h
  · injection h with h1 h2; subst h1; rfl
  · split at h
    · injection h with h1 h2; subst h1; rfl
    · split at h
      · injection h with h1 h2; subst h1; rfl
      · split at h
        · injection h with h1 h2; subst h1; rfl
        · injection h with h1 h2; cases h2

theorem cycleTry_chat_of_error (env : Env) (s : LoopState)
    (s1 : LoopState) (e : HWError) (h : cycleTry env s = (s1, .error e)) :
    s1.world.chat = s.world.chat := by
  unfold cycleTry at h
  split at h
  · rename_i w1 e1 heq
    injection h with h1 h2
    subst h1
    exact handle_api_request_chat env s.world s.timestamp w1 (.error e1) heq
  · rename_i w1 response heq
    have hw1 := handle_api_request_chat env s.world s.timestamp w1 (.ok response) heq
    split at h
    · injection h with h1 h2
      subst h1
      exact hw1
    · rename_i homeworks heq2
      split at h
      · rename_i w2 e2 heq3
        injection h with h1 h2
        subst h1
        have := notifyStep_chat_of_error env w1 homeworks s.last_status w2 e2 heq3
        simp_all
      · rename_i w2 last' heq3
        split at h
        · rename_i e3 heq4
          obtain ⟨y, hy⟩ := pyGetD_ok_of_ok response "homeworks" "current_date"
            (.vList []) s.timestamp homeworks heq2
          rw [hy] at heq4
          cases heq4
        · injection h with h1 h2; cases h2

theorem cycleTry_last_of_error (env : Env) (s : LoopState)
    (s1 : LoopState) (e : HWError) (h : cycleTry env s = (s1, .error e)) :
    s1.last_status = s.last_status := by
  unfold cycleTry at h
  split at h
  · injection h with h1 h2; subst h1; rfl
  · rename_i w1 response heq
    split at h
    · injection h with h1 h2; subst h1; rfl
    · rename_i homeworks heq2
      split at h
      · injection h with h1 h2; subst h1; rfl
      · rename_i w2 last' heq3
        split at h
        · rename_i e3 heq4
          obtain ⟨y, hy⟩ := pyGetD_ok_of_ok response "homeworks" "current_date"
            (.vList []) s.timestamp homeworks heq2
          rw [hy] at heq4
          cases heq4
        · injection h with h1 h2; cases h2

theorem mainLoopBody_of_ok (env : Env) (s : LoopState) (s1 : LoopState)
    (h : cycleTry env s = (s1, .ok ())) :
    mainLoopBody env s = ({ s1 with error_sent := false }, none) := by
  unfold mainLoopBody
  rw [h]

theorem mainLoopBody_of_error_dup (env : Env) (s : LoopState) (s1 : LoopState)
    (e : HWError) (h : cycleTry env s = (s1, .error e))
    (hes : s1.error_sent = true) :
    mainLoopBody env s = (s1, none) := by
  unfold mainLoopBody
  rw [h]
  simp [hes]

theorem mainLoopBody_of_error_first_ok (env : Env) (s : LoopState)
    (s1 : LoopState) (e : HWError) (h : cycleTry env s = (s1, .error e))
    (hes : s1.error_sent = false)
    (hok : env.sendOk s1.world.sendAttempts = true) :
    mainLoopBody env s =
      ({ s1 with
          world := { s1.world with
            sendAttempts := s1.world.sendAttempts + 1,
            chat := s1.world.chat ++ [errNotice e] },
          error_sent := true }, none) := by
  unfold mainLoopBody
  rw [h]
  simp [hes, send_message_of_ok env s1.world (errNotice e) hok]

theorem mainLoopBody_of_error_first_fail (env : Env) (s : LoopState)
    (s1 : LoopState) (e : HWError) (h : cycleTry env s = (s1, .error e))
    (hes : s1.error_sent = false)
    (hok : env.sendOk s1.world.sendAttempts = false) :
    mainLoopBody env s =
      ({ s1 with
          world := { s1.world with sendAttempts := s1.world.sendAttempts + 1 } },
       some (.messageSendError
         ("Не удалось отправить сообщение: " ++ env.sendErr s1.world.sendAttempts))) := by
  unfold mainLoopBody
  rw [h]
  simp [hes, send_message_of_fail env s1.world (errNotice e) hok]

theorem mainLoopBody_last (env : Env) (s : LoopState) :
    (mainLoopBody env s).1.last_status = (cycleTry env s).1.last_status := by
  unfold mainLoopBody
  split
  · rename_i s1 heq
    rw [heq]
  · rename_i s1 e heq
    rw [heq]
    split
    · rfl
    · split <;> rfl

theorem mainLoopBody_timestamp (env : Env) (s : LoopState) :
    (mainLoopBody env s).1.timestamp = (cycleTry env s).1.timestamp := by
  unfold mainLoopBody
  split
  · rename_i s1 heq
    rw [heq]
  · rename_i s1 e heq
    rw [heq]
    split
    · rfl
    · split <;> rfl

/-! ### Claims -/

/-- C1 (counterexample).  The claim says a cycle failing with
`APIResponseError` is logged but never relayed to the chat.  On the concrete
run where the API answers HTTP 500, the cycle fails with `APIResponseError`
and the handler in `main` sends the error text to the chat: afterwards the
chat holds exactly that error message. -/
theorem C1_counterexample :
    (cycleTry envHttp500 (initState 0)).2 =
      .error (.apiResponseError
        ("API вернул код ответа 500. Параметры запроса: " ++ requestKwargsStr "T" (.vInt 0))) ∧
    (mainLoopBody envHttp500 (initState 0)).1.world.chat =
      ["Ошибка при получении ответа от API: API вернул код ответа 500. Параметры запроса: "
        ++ requestKwargsStr "T" (.vInt 0)] :=
  ⟨rfl, rfl⟩

/-- C1 (amended).  When a cycle fails and no error notification has been
sent in the current failing streak (`error_sent` is false) and the
notification channel accepts the message, the failure is relayed to the
chat: exactly one error message is appended, and the loop continues. -/
theorem C1_amended (env : Env) (s : LoopState) (s1 : LoopState) (e : HWError)
    (h : cycleTry env s = (s1, .error e)) (hes : s.error_sent = false)
    (hok : env.sendOk s1.world.sendAttempts = true) :
    (mainLoopBody env s).1.world.chat = s.world.chat ++ [errNotice e] ∧
    (mainLoopBody env s).2 = none := by
  have hes1 : s1.error_sent = false := by
    rw [cycleTry_error_sent env s s1 _ h, hes]
  rw [mainLoopBody_of_error_first_ok env s s1 e h hes1 hok]
  exact ⟨by simp [cycleTry_chat_of_error env s s1 e h], rfl⟩

/-- C1 (witness): the amended statement at the HTTP-500 run. -/
theorem C1_amended_witness :
    (mainLoopBody envHttp500 (initState 0)).1.world.chat =
      [] ++ [errNotice (.apiResponseError
        ("API вернул код ответа 500. Параметры запроса: " ++ requestKwargsStr "T" (.vInt 0)))] ∧
    (mainLoopBody envHttp500 (initState 0)).2 = none :=
  C1_amended envHttp500 (initState 0)
    { world := { requests := 1, sendAttempts := 0, chat := [] },
      timestamp := .vInt 0, last_status := none, error_sent := false }
    (.apiResponseError
      ("API вернул код ответа 500. Параметры запроса: " ++ requestKwargsStr "T" (.vInt 0)))
    rfl rfl rfl

/-- C2 (counterexample).  The claim says a `MessageSendError` can never
terminate the loop.  On the concrete run where every chat send fails, the
status notification raises `MessageSendError`, the handler's own
error-notification send raises again inside the `except` block, and that
second exception escapes: the loop body returns an uncaught exception. -/
theorem C2_counterexample :
    (cycleTry envSendAlwaysFails (initState 0)).2 =
      .error (.messageSendError "Не удалось отправить сообщение: Bad Request") ∧
    (mainLoopBody envSendAlwaysFails (initState 0)).2 =
      some (.messageSendError "Не удалось отправить сообщение: Bad Request") :=
  ⟨rfl, rfl⟩

/-- C2 (amended).  A `MessageSendError` raised inside the `try` block is
caught in the loop body; the loop survives the cycle provided an error
notification was already sent in the current failing streak, or the
handler's own error-notification send succeeds.  (When that secondary send
also fails, the exception escapes — see the counterexample.) -/
theorem C2_amended (env : Env) (s : LoopState) (s1 : LoopState) (m : String)
    (h : cycleTry env s = (s1, .error (.messageSendError m)))
    (hor : s.error_sent = true ∨ env.sendOk s1.world.sendAttempts = true) :
    (mainLoopBody env s).2 = none := by
  have hes1 : s1.error_sent = s.error_sent := cycleTry_error_sent env s s1 _ h
  rcases hor with hes | hok
  · rw [mainLoopBody_of_error_dup env s s1 _ h (by rw [hes1, hes])]
  · cases hes : s.error_sent
    · rw [mainLoopBody_of_error_first_ok env s s1 _ h (by rw [hes1, hes]) hok]
    · rw [mainLoopBody_of_error_dup env s s1 _ h (by rw [hes1, hes])]

/-- C2 (witness): the amended statement on the run where only the first
send fails. -/
theorem C2_amended_witness :
    (mainLoopBody envFirstSendFails (initState 0)).2 = none :=
  C2_amended envFirstSendFails (initState 0)
    { world := { requests := 2, sendAttempts := 1, chat := [] },
      timestamp := .vInt 0, last_status := none, error_sent := false }
    "Не удалось отправить сообщение: Bad Request"
    rfl (Or.inr rfl)

/-- C3 (code bug).  `handle_api_request` evaluated at the failing input:
the first API answer is the valid `{"homeworks": []}`, the second is the
bare integer `7`.  The function issues two outbound requests (the request
counter ends at 2) and returns the second answer — which `check_response`
rejects — even though the first answer is the one that was validated.  The
claim (one request per cycle, and the processed payload is the validated
one) is what the function's own docstring describes; the double call is the
bug. -/
theorem C3_code_bug_eval :
    handle_api_request envSecondAnswerBad
        { requests := 0, sendAttempts := 0, chat := [] } (.vInt 0) =
      ({ requests := 2, sendAttempts := 0, chat := [] }, .ok (.vInt 7)) ∧
    check_response (.vDict [("homeworks", .vList [])]) = .ok () ∧
    check_response (.vInt 7) = .error (.typeError "Ответ API не является словарем.") :=
  ⟨rfl, rfl, rfl⟩

/-- C4 (counterexample).  The claim says the cursor is replaced by
`current_date` regardless of how the notify step turned out.  On the
concrete run where the response carries `current_date = 1000` but the
record's status is unknown, formatting fails and the cursor keeps its old
value `0` instead of becoming `1000` (the loop itself survives). -/
theorem C4_counterexample :
    pyGetD respFrozen "current_date" (.vInt 0) = .ok (.vInt 1000) ∧
    (cycleTry envFrozen (initState 0)).2 =
      .error (.unknownHomeworkStatusError "Неизвестный статус работы: frozen") ∧
    (mainLoopBody envFrozen (initState 0)).1.timestamp = .vInt 0 ∧
    (mainLoopBody envFrozen (initState 0)).1.timestamp ≠ .vInt 1000 ∧
    (mainLoopBody envFrozen (initState 0)).2 = none :=
  ⟨rfl, rfl, rfl,
   by
     intro hx
     rw [show (mainLoopBody envFrozen (initState 0)).1.timestamp = Value.vInt 0 from rfl] at hx
     exact absurd (Value.vInt.inj hx) (by decide),
   rfl⟩

/-- C4 (amended).  The cursor is advanced only by a cycle whose `try` block
completes without an exception: then, if the response (the second, returned
answer) carries `current_date`, the cursor is replaced by it, and otherwise
it is unchanged.  On any exception during the cycle — including a
formatting or send failure — the cursor keeps its previous value. -/
theorem C4_amended :
    (∀ (env : Env) (s s1 : LoopState) (e : HWError),
      cycleTry env s = (s1, .error e) →
      (mainLoopBody env s).1.timestamp = s.timestamp) ∧
    (∀ (env : Env) (s s1 : LoopState) (w1 : World) (d : List (String × Value)),
      cycleTry env s = (s1, .ok ()) →
      handle_api_request env s.world s.timestamp = (w1, .ok (.vDict d)) →
      (mainLoopBody env s).1.timestamp =
        (lookupKey d "current_date").getD s.timestamp) := by
  constructor
  · intro env s s1 e h
    rw [mainLoopBody_timestamp env s, h]
    exact cycleTry_timestamp_of_error env s s1 e h
  · intro env s s1 w1 d hc hw
    rw [mainLoopBody_timestamp env s, hc]
    unfold cycleTry at hc
    rw [hw] at hc
    simp only [pyGetD] at hc
    split at hc
    · cases hc
    · injection hc with h1 h2
      subst h1
      rfl

/-- C4 (witness): both parts of the amended statement on concrete runs —
the failing-notify run leaves the cursor at `0`, and a clean run on
`respApproved` moves it to `current_date = 1000`. -/
theorem C4_amended_witness :
    (mainLoopBody envFrozen (initState 0)).1.timestamp = (initState 0).timestamp ∧
    (mainLoopBody envApproved (initState 0)).1.timestamp =
      (lookupKey [("homeworks", .vList [hwApproved]), ("current_date", .vInt 1000)]
        "current_date").getD (initState 0).timestamp :=
  ⟨C4_amended.1 envFrozen (initState 0)
    { world := { requests := 2, sendAttempts := 0, chat := [] },
      timestamp := .vInt 0, last_status := none, error_sent := false }
    (.unknownHomeworkStatusError "Неизвестный статус работы: frozen") rfl,
   C4_amended.2 envApproved (initState 0)
    { world :=
        { requests := 2, sendAttempts := 1,
          chat := ["Изменился статус проверки работы \"hw1\".Работа проверена: ревьюеру всё понравилось. Ура!"] },
      timestamp := .vInt 1000,
      last_status := some "Изменился статус проверки работы \"hw1\".Работа проверена: ревьюеру всё понравилось. Ура!",
      error_sent := false }
    { requests := 2, sendAttempts := 0, chat := [] }
    [("homeworks", .vList [hwApproved]), ("current_date", .vInt 1000)]
    rfl rfl⟩

/-- C5 (counterexample).  `parse_status` on the approved record returns the
sentence with no separator between `".` and the verdict text — not the
space-separated sentence the claim states. -/
theorem C5_counterexample :
    parse_status hwApproved =
      .ok "Изменился статус проверки работы \"hw1\".Работа проверена: ревьюеру всё понравилось. Ура!" ∧
    ("Изменился статус проверки работы \"hw1\".Работа проверена: ревьюеру всё понравилось. Ура!" : String) ≠
      "Изменился статус проверки работы \"hw1\". Работа проверена: ревьюеру всё понравилось. Ура!" :=
  ⟨rfl, by decide⟩

/-- C5 (amended).  For every record whose `homework_name` is the string
`name` and whose `status` is an enumerated verdict code, `parse_status`
returns `Изменился статус проверки работы "<name>".<verdict-text>` — the
source concatenates the two f-strings with no separating space. -/
theorem C5_amended (d : List (String × Value)) (name st verdict : String)
    (h1 : lookupKey d "homework_name" = some (.vStr name))
    (h2 : lookupKey d "status" = some (.vStr st))
    (h3 : lookupKey HOMEWORK_VERDICTS st = some verdict) :
    parse_status (.vDict d) =
      .ok ("Изменился статус проверки работы \"" ++ name ++ "\"." ++ verdict) := by
  simp [parse_status, pyInKeys, pySubscript, verdictLookup, pyStr, h1, h2, h3]

/-- C5 (witness): the amended statement at the approved record. -/
theorem C5_amended_witness :
    parse_status (.vDict [("homework_name", .vStr "hw1"), ("status", .vStr "approved")]) =
      .ok ("Изменился статус проверки работы \"" ++ "hw1" ++ "\"."
        ++ "Работа проверена: ревьюеру всё понравилось. Ура!") :=
  C5_amended [("homework_name", .vStr "hw1"), ("status", .vStr "approved")]
    "hw1" "approved" "Работа проверена: ревьюеру всё понравилось. Ура!" rfl rfl rfl

/-- C6 (confirmed).  When the `try` block of a cycle fails with
`MessageSendError` — the notification send failed — `last_status` is left
unchanged by the whole cycle: a failed send is never recorded as a
successful notification, so the same status is sent again later. -/
theorem C6_theorem (env : Env) (s : LoopState) (s1 : LoopState) (m : String)
    (h : cycleTry env s = (s1, .error (.messageSendError m))) :
    (mainLoopBody env s).1.last_status = s.last_status := by
  rw [mainLoopBody_last env s, h]
  exact cycleTry_last_of_error env s s1 _ h

/-- C6 (witness): on the run where the first send fails, `last_status`
stays `None`. -/
theorem C6_theorem_witness :
    (mainLoopBody envFirstSendFails (initState 0)).1.last_status = none :=
  C6_theorem envFirstSendFails (initState 0)
    { world := { requests := 2, sendAttempts := 1, chat := [] },
      timestamp := .vInt 0, last_status := none, error_sent := false }
    "Не удалось отправить сообщение: Bad Request" rfl

/-- C7 (confirmed).  The notify step is idempotent: with a record that
formats to `st`, a channel that accepts the send, and a previous
`last_status` different from `st`, the first `handle_homework` call sends
exactly one message and returns `st`, and a second call with
`last_status = st` changes nothing and sends nothing. -/
theorem C7_theorem (env : Env) (w : World) (hw : Value) (st : String)
    (last : Option String)
    (hp : parse_status hw = .ok st)
    (hok : env.sendOk w.sendAttempts = true)
    (hne : last ≠ some st) :
    handle_homework env w hw last =
      ({ w with sendAttempts := w.sendAttempts + 1, chat := w.chat ++ [st] },
       .ok st) ∧
    handle_homework env
        { w with sendAttempts := w.sendAttempts + 1, chat := w.chat ++ [st] }
        hw (some st) =
      ({ w with sendAttempts := w.sendAttempts + 1, chat := w.chat ++ [st] },
       .ok st) := by
  constructor
  · simp [handle_homework, hp, hne, send_message_of_ok env w st hok]
  · simp [handle_homework, hp]

/-- C7 (witness): both calls at the approved record, starting from an empty
chat and `last_status = None`. -/
theorem C7_theorem_witness :
    handle_homework envApproved
        { requests := 0, sendAttempts := 0, chat := [] } hwApproved none =
      ({ requests := 0, sendAttempts := 1,
         chat := ["Изменился статус проверки работы \"hw1\".Работа проверена: ревьюеру всё понравилось. Ура!"] },
       .ok "Изменился статус проверки работы \"hw1\".Работа проверена: ревьюеру всё понравилось. Ура!") ∧
    handle_homework envApproved
        { requests := 0, sendAttempts := 1,
          chat := ["Изменился статус проверки работы \"hw1\".Работа проверена: ревьюеру всё понравилось. Ура!"] }
        hwApproved
        (some "Изменился статус проверки работы \"hw1\".Работа проверена: ревьюеру всё понравилось. Ура!") =
      ({ requests := 0, sendAttempts := 1,
         chat := ["Изменился статус проверки работы \"hw1\".Работа проверена: ревьюеру всё понравилось. Ура!"] },
       .ok "Изменился статус проверки работы \"hw1\".Работа проверена: ревьюеру всё понравилось. Ура!") :=
  C7_theorem envApproved { requests := 0, sendAttempts := 0, chat := [] }
    hwApproved
    "Изменился статус проверки работы \"hw1\".Работа проверена: ревьюеру всё понравилось. Ура!"
    none rfl rfl (by simp)

/-- C8 (confirmed).  `check_response` classifies every payload by shape:
non-dict → `TypeError`; dict without `homeworks` → `MissingHomeworkKeyError`;
`homeworks` present but not a list → `HomeworksNotListError`; `homeworks` a
list → success (the function is pure, so the payload is never modified). -/
theorem C8_theorem :
    (∀ v : Value, (∀ d, v ≠ .vDict d) →
      check_response v = .error (.typeError "Ответ API не является словарем.")) ∧
    (∀ d, lookupKey d "homeworks" = none →
      check_response (.vDict d) =
        .error (.missingHomeworkKeyError "В ответе API отсутствует ключ \"homeworks\".")) ∧
    (∀ d hv, lookupKey d "homeworks" = some hv → (∀ l, hv ≠ .vList l) →
      check_response (.vDict d) =
        .error (.homeworksNotListError "Значение ключа \"homeworks\" не является списком.")) ∧
    (∀ d l, lookupKey d "homeworks" = some (.vList l) →
      check_response (.vDict d) = .ok ()) := by
  refine ⟨?_, ?_, ?_, ?_⟩
  · intro v hv
    cases v <;> try rfl
    exact absurd rfl (hv _)
  · intro d h
    simp [check_response, h]
  · intro d hv hsome hnl
    simp only [check_response, hsome]
  · intro d l h
    simp [check_response, h]

/-- C8 (witness): one payload of each shape. -/
theorem C8_theorem_witness :
    check_response (.vInt 0) = .error (.typeError "Ответ API не является словарем.") ∧
    check_response (.vDict []) =
      .error (.missingHomeworkKeyError "В ответе API отсутствует ключ \"homeworks\".") ∧
    check_response (.vDict [("homeworks", .vStr "x")]) =
      .error (.homeworksNotListError "Значение ключа \"homeworks\" не является списком.") ∧
    check_response (.vDict [("homeworks", .vList [])]) = .ok () :=
  ⟨C8_theorem.1 (.vInt 0) (fun _ h => Value.noConfusion h),
   C8_theorem.2.1 [] rfl,
   C8_theorem.2.2.1 [("homeworks", .vStr "x")] (.vStr "x") rfl
     (fun _ h => Value.noConfusion h),
   C8_theorem.2.2.2 [("homeworks", .vList [])] [] rfl⟩

/-- C9 (counterexample).  The claim says every record with both keys and a
status outside the enumerated set fails with the unknown-status error
naming the value.  For the record whose status is the list `[]` — both
keys present, status outside the set — the membership check
`status not in HOMEWORK_VERDICTS` hashes the status first and raises
`TypeError: unhashable type: 'list'` instead: an error of a different
class whose message does not name the value. -/
theorem C9_counterexample :
    parse_status (.vDict [("homework_name", .vStr "hw1"), ("status", .vList [])]) =
      .error (.pyError "TypeError: unhashable type: 'list'") ∧
    (Except.error (.pyError "TypeError: unhashable type: 'list'") :
        Except HWError String) ≠
      .error (.unknownHomeworkStatusError
        ("Неизвестный статус работы: " ++ pyStr (.vList []))) :=
  ⟨rfl, fun h => HWError.noConfusion (Except.error.inj h)⟩

/-- C9 (amended).  A record carrying both keys whose status is hashable —
a string outside the verdict set, or a number, boolean or null — makes
`parse_status` fail with `UnknownHomeworkStatusError` naming the offending
value; with an unhashable status (a list or a mapping) the membership
check itself raises `TypeError: unhashable type`.  Either way no such
record is silently skipped. -/
theorem C9_amended :
    (∀ (d : List (String × Value)) (v : Value),
      (lookupKey d "homework_name").isSome = true →
      lookupKey d "status" = some v →
      verdictLookup v = .ok none →
      parse_status (.vDict d) =
        .error (.unknownHomeworkStatusError
          ("Неизвестный статус работы: " ++ pyStr v))) ∧
    (∀ (d : List (String × Value)) (v : Value) (e : HWError),
      (lookupKey d "homework_name").isSome = true →
      lookupKey d "status" = some v →
      verdictLookup v = .error e →
      parse_status (.vDict d) = .error e) := by
  constructor
  · intro d v h1 h2 h3
    obtain ⟨x, hx⟩ := Option.isSome_iff_exists.mp h1
    simp [parse_status, pyInKeys, pySubscript, hx, h2, h3]
  · intro d v e h1 h2 h3
    obtain ⟨x, hx⟩ := Option.isSome_iff_exists.mp h1
    simp [parse_status, pyInKeys, pySubscript, hx, h2, h3]

/-- C9 (witness): both parts — the string status `frozen` gives the
unknown-status error naming it, the unhashable list status gives the
`TypeError`. -/
theorem C9_amended_witness :
    parse_status (.vDict [("homework_name", .vStr "hw1"), ("status", .vStr "frozen")]) =
      .error (.unknownHomeworkStatusError
        ("Неизвестный статус работы: " ++ pyStr (.vStr "frozen"))) ∧
    parse_status (.vDict [("homework_name", .vStr "hw1"), ("status", .vList [])]) =
      .error (.pyError "TypeError: unhashable type: 'list'") :=
  ⟨C9_amended.1 [("homework_name", .vStr "hw1"), ("status", .vStr "frozen")]
    (.vStr "frozen") rfl rfl rfl,
   C9_amended.2 [("homework_name", .vStr "hw1"), ("status", .vList [])]
    (.vList []) (.pyError "TypeError: unhashable type: 'list'") rfl rfl rfl⟩

/-- C10 (confirmed).  `error_sent` starts false; a cycle that completes
without an exception resets it to false; the first handled failure of a
streak (when the channel accepts the message) sends exactly one error
notification and sets it true; while it is true a handled failure sends
nothing to the chat and keeps it true; hence over any run of consecutive
handled failures entered with `error_sent` true, the chat never grows. -/
theorem C10_theorem :
    (∀ t0 : Int, (initState t0).error_sent = false) ∧
    (∀ (env : Env) (s s1 : LoopState), cycleTry env s = (s1, .ok ()) →
      mainLoopBody env s = ({ s1 with error_sent := false }, none)) ∧
    (∀ (env : Env) (s s1 : LoopState) (e : HWError),
      cycleTry env s = (s1, .error e) → s.error_sent = false →
      env.sendOk s1.world.sendAttempts = true →
      (mainLoopBody env s).1.error_sent = true ∧
      (mainLoopBody env s).1.world.chat = s.world.chat ++ [errNotice e] ∧
      (mainLoopBody env s).2 = none) ∧
    (∀ (env : Env) (s s1 : LoopState) (e : HWError),
      cycleTry env s = (s1, .error e) → s.error_sent = true →
      (mainLoopBody env s).1.world.chat = s.world.chat ∧
      (mainLoopBody env s).1.error_sent = true ∧
      (mainLoopBody env s).2 = none) ∧
    (∀ (env : Env) (s : LoopState) (n : Nat), s.error_sent = true →
      allFailHandled env s n →
      (runCycles env s n).1.world.chat = s.world.chat) := by
  refine ⟨fun _ => rfl, mainLoopBody_of_ok, ?_, ?_, ?_⟩
  · intro env s s1 e h hes hok
    have hes1 : s1.error_sent = false := by
      rw [cycleTry_error_sent env s s1 _ h, hes]
    rw [mainLoopBody_of_error_first_ok env s s1 e h hes1 hok]
    exact ⟨rfl, by simp [cycleTry_chat_of_error env s s1 e h], rfl⟩
  · intro env s s1 e h hes
    have hes1 : s1.error_sent = true := by
      rw [cycleTry_error_sent env s s1 _ h, hes]
    rw [mainLoopBody_of_error_dup env s s1 e h hes1]
    exact ⟨cycleTry_chat_of_error env s s1 e h, hes1, rfl⟩
  · intro env s n
    induction n generalizing s with
    | zero => intro _ _; rfl
    | succ n ih =>
      intro hes hall
      obtain ⟨⟨e, he⟩, _, hrest⟩ := hall
      rcases hcy : cycleTry env s with ⟨s1, r⟩
      rw [hcy] at he
      simp at he
      subst he
      have hes1 : s1.error_sent = true := by
        rw [cycleTry_error_sent env s s1 _ hcy, hes]
      have hmb : mainLoopBody env s = (s1, none) :=
        mainLoopBody_of_error_dup env s s1 e hcy hes1
      rw [hmb] at hrest
      have hstep : runCycles env s (n + 1) = runCycles env s1 n := by
        rw [runCycles, hmb]
      rw [hstep, ih s1 hes1 hrest]
      exact cycleTry_chat_of_error env s s1 e hcy

/-- C10 (witness): the parts with hypotheses, at the HTTP-404 run — the
first failing cycle sends one error notice from a fresh state, and two
further handled failures entered with `error_sent` true leave the chat
untouched. -/
theorem C10_theorem_witness :
    ((mainLoopBody envHttp404 (initState 0)).1.error_sent = true ∧
     (mainLoopBody envHttp404 (initState 0)).1.world.chat =
       [] ++ [errNotice (.apiResponseError
         ("API вернул код ответа 404. Параметры запроса: " ++ requestKwargsStr "T" (.vInt 0)))] ∧
     (mainLoopBody envHttp404 (initState 0)).2 = none) ∧
    (runCycles envHttp404 stateErrSent 2).1.world.chat = stateErrSent.world.chat :=
  ⟨C10_theorem.2.2.1 envHttp404 (initState 0)
    { world := { requests := 1, sendAttempts := 0, chat := [] },
      timestamp := .vInt 0, last_status := none, error_sent := false }
    (.apiResponseError
      ("API вернул код ответа 404. Параметры запроса: " ++ requestKwargsStr "T" (.vInt 0)))
    rfl rfl rfl,
   C10_theorem.2.2.2.2 envHttp404 stateErrSent 2 rfl
    ⟨⟨_, rfl⟩, rfl, ⟨_, rfl⟩, rfl, trivial⟩⟩
